import Mathlib

/-!
Verification development for the solapi-backend repository.

The repository has two FastAPI variants:
  * `app.py`  — fixed-admin policy: `from == to == normalize_kor(ENV_SENDER)`,
    with a live approved-sender verification step before each send;
  * `main.py` — fixed-sender policy: `from == SOLAPI_SENDER`, `to` is the
    digit-normalized customer phone field.

The pure string logic (digit stripping, Korean country-code normalization,
message-body building, approved-sender set construction) is embedded
directly; the HTTP handlers are embedded as pure functions of the request
body, the configuration, and oracles describing what the two outbound
network calls would return if issued.  Each handler also returns the list
of outbound calls it actually performed, so that claims of the form
"no outbound call is made" are expressible.

Python string primitives (`lower`, `upper`, `strip`, `in`, `startswith`,
`endswith`) are embedded at the character-list level so that every
definition evaluates inside the kernel.
-/

set_option maxHeartbeats 1000000
set_option linter.unusedVariables false

namespace Solapi

/-- Function `only_digits` from app.py: `DIGITS.sub("", s or "")`, i.e. strip every
non-digit character from the string. -/
def only_digits (s : String) : String := ⟨s.data.filter Char.isDigit⟩

/-- Function `normalize_phone` from main.py: `PHONE_RE.sub("", s or "")` — identical
digit stripping. -/
def normalize_phone (s : String) : String := ⟨s.data.filter Char.isDigit⟩

/-- The character-list level of `normalize_kor` from app.py: on the digit
string `n`, if it starts with "82" and the remainder starts with one of the
mobile prefixes 10/11/16/17/18/19, replace the leading "82" by "0";
otherwise return `n` unchanged. -/
def normKorList (n : List Char) : List Char :=
  if ['8','2'].isPrefixOf n then
    let rest := n.drop 2
    if ['1','0'].isPrefixOf rest ∨ ['1','1'].isPrefixOf rest ∨ ['1','6'].isPrefixOf rest ∨
       ['1','7'].isPrefixOf rest ∨ ['1','8'].isPrefixOf rest ∨ ['1','9'].isPrefixOf rest then
      '0' :: rest
    else n
  else n

/-- Function `normalize_kor` from app.py: first strip non-digits, then rewrite a
"82" + mobile-prefix number to its local "0…" form. -/
def normalize_kor (num : String) : String := ⟨normKorList (only_digits num).data⟩

/-- Python `str.lower()`, used on the content-type header. -/
def strLower (s : String) : String := ⟨s.data.map Char.toLower⟩

/-- Python `str.upper()`, used on vendor status strings. -/
def strUpper (s : String) : String := ⟨s.data.map Char.toUpper⟩

/-- Python `str.strip()`: remove leading and trailing whitespace. -/
def strTrim (s : String) : String :=
  ⟨((s.data.dropWhile Char.isWhitespace).reverse.dropWhile Char.isWhitespace).reverse⟩

/-- Python substring test `pat in s`. -/
def strContains (s pat : String) : Bool :=
  s.data.tails.any (fun t => pat.data.isPrefixOf t)

/-- Python `s.startswith(pat)`. -/
def strStarts (s pat : String) : Bool := pat.data.isPrefixOf s.data

/-- Python `s.endswith(pat)`. -/
def strEnds (s pat : String) : Bool := pat.data.isSuffixOf s.data

/-- Python set insertion `numbers.add(x)`, on a set modelled as a
duplicate-free list (membership is the only operation the code performs on
the resulting set). -/
def setAdd (x : String) (l : List String) : List String :=
  if x ∈ l then l else x :: l

theorem pair_isPrefixOf_iff (a b : Char) (l : List Char) :
    ([a, b].isPrefixOf l) = true ↔ ∃ t, l = a :: b :: t := by
  cases l with
  | nil => simp [List.isPrefixOf]
  | cons x xs =>
    cases xs with
    | nil => simp [List.isPrefixOf]
    | cons y ys =>
      simp only [List.isPrefixOf, Bool.and_eq_true, beq_iff_eq]
      constructor
      · rintro ⟨rfl, rfl, -⟩
        exact ⟨ys, rfl⟩
      · rintro ⟨t, h⟩
        injection h with h1 h2
        injection h2 with h2 h3
        exact ⟨h1.symm, h2.symm, trivial⟩

theorem normKorList_all_digits (l : List Char) (h : ∀ c ∈ l, c.isDigit = true) :
    ∀ c ∈ normKorList l, c.isDigit = true := by
  intro c hc
  simp only [normKorList] at hc
  split at hc
  · split at hc
    · rcases List.mem_cons.mp hc with rfl | hc
      · rfl
      · exact h c (List.drop_sublist 2 l |>.mem hc)
    · exact h c hc
  · exact h c hc

theorem normKorList_idem (l : List Char) : normKorList (normKorList l) = normKorList l := by
  by_cases h82 : (['8','2'].isPrefixOf l) = true
  · by_cases hmob : (['1','0'].isPrefixOf (l.drop 2)) = true ∨
        (['1','1'].isPrefixOf (l.drop 2)) = true ∨ (['1','6'].isPrefixOf (l.drop 2)) = true ∨
        (['1','7'].isPrefixOf (l.drop 2)) = true ∨ (['1','8'].isPrefixOf (l.drop 2)) = true ∨
        (['1','9'].isPrefixOf (l.drop 2)) = true
    · have h1 : normKorList l = '0' :: l.drop 2 := by
        unfold normKorList
        rw [if_pos h82, if_pos hmob]
      rw [h1]
      unfold normKorList
      rw [if_neg]
      simp [List.isPrefixOf]
    · have h1 : normKorList l = l := by
        unfold normKorList
        rw [if_pos h82, if_neg hmob]
      rw [h1]
      exact h1
  · have h1 : normKorList l = l := by
      unfold normKorList
      rw [if_neg h82]
    rw [h1]
    exact h1

theorem only_digits_data (s : String) : (only_digits s).data = s.data.filter Char.isDigit := rfl

/-- C5 helper: the digit-stripping pass of a second `normalize_kor`
application leaves the result of a first application unchanged. -/
theorem filter_normKorList (s : String) :
    (normKorList (only_digits s).data).filter Char.isDigit = normKorList (only_digits s).data := by
  apply List.filter_eq_self.mpr
  apply normKorList_all_digits
  intro c hc
  rw [only_digits_data] at hc
  exact (List.mem_filter.mp hc).2

/-- C4, first half, data form. -/
theorem normKor_rewrite (p rest : List Char)
    (hp : p = ['1','0'] ∨ p = ['1','1'] ∨ p = ['1','6'] ∨ p = ['1','7'] ∨
          p = ['1','8'] ∨ p = ['1','9']) :
    normKorList ('8' :: '2' :: (p ++ rest)) = '0' :: (p ++ rest) := by
  unfold normKorList
  rw [if_pos (by exact (pair_isPrefixOf_iff '8' '2' _).mpr ⟨p ++ rest, rfl⟩)]
  rw [if_pos]
  simp only [List.drop_succ_cons, List.drop_zero]
  rcases hp with rfl | rfl | rfl | rfl | rfl | rfl <;>
    simp [pair_isPrefixOf_iff]

/-- C4, second half, data form: with no recognized "82"+mobile-prefix shape,
`normKorList` is the identity. -/
theorem normKor_id (l : List Char)
    (h : ∀ t, l ≠ '8' :: '2' :: '1' :: '0' :: t ∧ l ≠ '8' :: '2' :: '1' :: '1' :: t ∧
         l ≠ '8' :: '2' :: '1' :: '6' :: t ∧ l ≠ '8' :: '2' :: '1' :: '7' :: t ∧
         l ≠ '8' :: '2' :: '1' :: '8' :: t ∧ l ≠ '8' :: '2' :: '1' :: '9' :: t) :
    normKorList l = l := by
  unfold normKorList
  split
  · next h82 =>
    rcases (pair_isPrefixOf_iff '8' '2' l).mp h82 with ⟨t, rfl⟩
    simp only [List.drop_succ_cons, List.drop_zero]
    rw [if_neg]
    intro hmob
    rcases hmob with hm | hm | hm | hm | hm | hm <;>
      rcases (pair_isPrefixOf_iff _ _ t).mp hm with ⟨u, rfl⟩
    · exact (h u).1 rfl
    · exact (h u).2.1 rfl
    · exact (h u).2.2.1 rfl
    · exact (h u).2.2.2.1 rfl
    · exact (h u).2.2.2.2.1 rfl
    · exact (h u).2.2.2.2.2 rfl
  · rfl

/-- Function `build_admin_text` from app.py: the five-line body sent to the
administrator.  A non-empty site is bracketed unless already bracketed; the
time label is stripped; every empty field is rendered as "-".  The `memo`
parameter is accepted but unused (the corresponding line is commented out in
the source). -/
def build_admin_text (site vd vt_label name phone memo : String) : String :=
  let site_disp := if site ≠ "" ∧ !(strStarts site "[" && strEnds site "]") then
      "[" ++ site ++ "]" else site
  let time_disp := if strTrim vt_label = "" then "-" else strTrim vt_label
  String.intercalate "\n"
    ["현장 : " ++ (if site_disp = "" then "-" else site_disp),
     "날짜 : " ++ (if vd = "" then "-" else vd),
     "시간 : " ++ time_disp,
     "이름 : " ++ (if name = "" then "-" else name),
     "연락처 : " ++ (if phone = "" then "-" else phone)]

/-- Function `build_message` from main.py: each part is an f-string stripped of
surrounding whitespace; the time line is appended only when the time label is
non-empty, and there is no "-" placeholder for missing fields. -/
def build_message (site vd vt_label name phone : String) : String :=
  let parts := [strTrim ("현장: " ++ site), strTrim ("날짜: " ++ vd)]
  let parts := if vt_label ≠ "" then parts ++ [strTrim ("시간: " ++ vt_label)] else parts
  let parts := parts ++ [strTrim ("성함: " ++ name), strTrim ("연락처: " ++ phone)]
  String.intercalate "\n" parts

/-- Constant `APPROVED_STATES` from app.py (used only through membership, so a list
models the Python set). -/
def APPROVED_STATES : List String :=
  ["APPROVED", "ACTIVE", "REGISTERED", "CONFIRMED", "VERIFIED", "ALLOW", "ENABLED", "OK",
   "AVAILABLE"]

/-- One identity record of the vendor's sender registry: the fields that
`fetch_registered_senders` reads, each possibly absent. -/
structure SenderItem where
  phoneNumber : Option String
  number : Option String
  status : Option String
deriving DecidableEq

/-- Python `a or b` where `a` is an optional string (`it.get(...)`): the
fallback is taken when the field is missing or empty. -/
def pyOr (a : Option String) (b : String) : String :=
  match a with
  | some s => if s = "" then b else s
  | none => b

/-- Expression `raw = it.get("phoneNumber") or it.get("number") or ""` from app.py. -/
def rawOf (it : SenderItem) : String := pyOr it.phoneNumber (pyOr it.number "")

/-- Expression `status = (it.get("status") or "").upper()` from app.py. -/
def statusOf (it : SenderItem) : String := strUpper (pyOr it.status "")

/-- Outcome of the vendor GET /senderid/v1/senders call, as seen by
`fetch_registered_senders`: the call may raise; otherwise it yields a
content-type header and, when the body parses as JSON of the expected shape,
the list of identity records (`data.get("data") or data.get("items") or []`).
`none` stands for a body on which `r.json()` raises (the exception is caught
by the function's `except` clause). -/
inductive FetchResult where
  | raises : FetchResult
  | response (contentType : String) (items : Option (List SenderItem)) : FetchResult
deriving DecidableEq

/-- The accumulation loop of `fetch_registered_senders`: for each record with
an approved status, add the raw digit form and the locale-normalized form,
each only when non-empty (Python `if n1: numbers.add(n1)`). -/
def collectSenders : List SenderItem → List String
  | [] => []
  | it :: rest =>
    let acc := collectSenders rest
    if statusOf it ∈ APPROVED_STATES then
      let n1 := only_digits (rawOf it)
      let n2 := normalize_kor (rawOf it)
      let acc1 := if n1 ≠ "" then setAdd n1 acc else acc
      if n2 ≠ "" then setAdd n2 acc1 else acc1
    else acc

/-- Function `fetch_registered_senders` from app.py as a function of the modelled HTTP
outcome: empty set when the call raises, when the content-type is not JSON,
or when the body fails to parse; otherwise the accumulated approved set. -/
def fetch_registered_senders : FetchResult → List String
  | .raises => []
  | .response ct items =>
    if !(strContains (strLower ct) "application/json") then []
    else
      match items with
      | none => []
      | some its => collectSenders its

/-- The approved-sender set as claim C7 words it (second definition, written
from the claim for comparison with `fetch_registered_senders`): both
`only_digits raw` and `normalize_kor raw` for every approved record,
unconditionally. -/
def specApprovedSet : List SenderItem → List String
  | [] => []
  | it :: rest =>
    if statusOf it ∈ APPROVED_STATES then
      setAdd (only_digits (rawOf it)) (setAdd (normalize_kor (rawOf it)) (specApprovedSet rest))
    else specApprovedSet rest

theorem normKorList_eq_nil_iff (l : List Char) : normKorList l = [] ↔ l = [] := by
  unfold normKorList
  split
  · next h82 =>
    rcases (pair_isPrefixOf_iff '8' '2' l).mp h82 with ⟨t, rfl⟩
    dsimp only
    split <;> simp
  · exact Iff.rfl

theorem normalize_kor_eq_empty_iff (r : String) :
    (normalize_kor r = "") ↔ (only_digits r = "") := by
  constructor
  · intro h
    apply String.ext
    exact (normKorList_eq_nil_iff _).mp (congrArg String.data h)
  · intro h
    apply String.ext
    show normKorList (only_digits r).data = ([] : List Char)
    rw [congrArg String.data h]
    decide

theorem mem_setAdd (x : String) (l : List String) (s : String) :
    s ∈ setAdd x l ↔ s = x ∨ s ∈ l := by
  unfold setAdd
  split
  · next h =>
    constructor
    · exact Or.inr
    · rintro (rfl | hs)
      · exact h
      · exact hs
  · exact List.mem_cons

theorem mem_collectSenders (items : List SenderItem) (s : String) :
    s ∈ collectSenders items ↔ s ≠ "" ∧ s ∈ specApprovedSet items := by
  induction items with
  | nil => simp [collectSenders, specApprovedSet]
  | cons it rest ih =>
    by_cases happ : statusOf it ∈ APPROVED_STATES
    · by_cases hn1 : only_digits (rawOf it) = ""
      · have hn2 : normalize_kor (rawOf it) = "" := (normalize_kor_eq_empty_iff _).mpr hn1
        simp only [collectSenders, specApprovedSet, if_pos happ, hn1, hn2]
        simp only [ne_eq, not_true_eq_false, if_false, ih, mem_setAdd]
        constructor
        · rintro ⟨hs, hm⟩
          exact ⟨hs, Or.inr (Or.inr hm)⟩
        · rintro ⟨hs, rfl | rfl | hm⟩
          · exact absurd rfl hs
          · exact absurd rfl hs
          · exact ⟨hs, hm⟩
      · have hn2 : normalize_kor (rawOf it) ≠ "" := by
          intro h
          exact hn1 ((normalize_kor_eq_empty_iff _).mp h)
        simp only [collectSenders, specApprovedSet, if_pos happ]
        simp only [ne_eq, hn1, not_false_eq_true, if_true, hn2, mem_setAdd, ih]
        constructor
        · rintro (rfl | rfl | ⟨hs, hm⟩)
          · exact ⟨hn2, Or.inr (Or.inl rfl)⟩
          · exact ⟨hn1, Or.inl rfl⟩
          · exact ⟨hs, Or.inr (Or.inr hm)⟩
        · rintro ⟨hs, rfl | rfl | hm⟩
          · exact Or.inr (Or.inl rfl)
          · exact Or.inl rfl
          · exact Or.inr (Or.inr ⟨hs, hm⟩)
    · simp [collectSenders, specApprovedSet, happ, ih]

/-- C7 (amended): the fetch returns the empty set when the call raises, when
the content-type is not JSON, or when the body is unparseable; on a parsed
response its members are exactly the non-empty strings among the raw-digit
and locale-normalized forms of every approved record (an approved record
whose raw value contains no digit contributes nothing, which is the one
departure from the claim as frozen). -/
theorem C7_fetch_registered_senders :
    fetch_registered_senders FetchResult.raises = [] ∧
    (∀ ct items, strContains (strLower ct) "application/json" = false →
        fetch_registered_senders (FetchResult.response ct items) = []) ∧
    (∀ ct, fetch_registered_senders (FetchResult.response ct none) = []) ∧
    (∀ ct items s, strContains (strLower ct) "application/json" = true →
        (s ∈ fetch_registered_senders (FetchResult.response ct (some items)) ↔
          s ≠ "" ∧ s ∈ specApprovedSet items)) := by
  refine ⟨rfl, ?_, ?_, ?_⟩
  · intro ct items h
    simp [fetch_registered_senders, h]
  · intro ct
    simp only [fetch_registered_senders]
    split <;> rfl
  · intro ct items s h
    simp only [fetch_registered_senders, h, Bool.not_true, Bool.false_eq_true, if_false]
    exact mem_collectSenders items s

/-- Witness for C7 at a concrete input: an "active" record returned by the
vendor in international form is matched in its local form. -/
theorem C7_fetch_registered_senders_witness :
    "01012345678" ∈ fetch_registered_senders (FetchResult.response "application/json"
        (some [⟨some "+82-10-1234-5678", none, some "active"⟩])) :=
  (C7_fetch_registered_senders.2.2.2 "application/json"
      [⟨some "+82-10-1234-5678", none, some "active"⟩] "01012345678" (by decide)).mpr
    (by decide)

/-- C7 counterexample: an approved record whose raw value contains no digit
contributes nothing to the returned set, while the set described by the claim
contains the empty string (`only_digits "abc"`) for it. -/
theorem C7_counterexample :
    "" ∈ specApprovedSet [⟨some "abc", none, some "APPROVED"⟩] ∧
    "" ∉ fetch_registered_senders
        (FetchResult.response "application/json" (some [⟨some "abc", none, some "APPROVED"⟩])) := by
  decide

/-- C4: for every input string x whose digit string has the form "82" + p + rest
with p in \x7b10, 11, 16, 17, 18, 19\x7d, `normalize_kor x` equals "0" + p + rest; for
every other input x, `normalize_kor x` equals `only_digits x`. -/
theorem C4_normalize_kor_rewrite :
    (∀ (x p rest : String), p ∈ ["10", "11", "16", "17", "18", "19"] →
      only_digits x = "82" ++ p ++ rest → normalize_kor x = "0" ++ p ++ rest) ∧
    (∀ x : String, (∀ (p rest : String), p ∈ ["10", "11", "16", "17", "18", "19"] →
      only_digits x ≠ "82" ++ p ++ rest) → normalize_kor x = only_digits x) := by
  constructor
  · intro x p rest hp h
    apply String.ext
    have hd : (only_digits x).data = '8' :: '2' :: (p.data ++ rest.data) := by
      rw [h]
      simp only [String.data_append, List.append_assoc, List.cons_append, List.nil_append]
    show normKorList (only_digits x).data = ("0" ++ p ++ rest).data
    rw [hd]
    have hgoal : ("0" ++ p ++ rest).data = '0' :: (p.data ++ rest.data) := by
      simp only [String.data_append, List.append_assoc, List.cons_append, List.nil_append]
    rw [hgoal]
    apply normKor_rewrite
    fin_cases hp <;> simp
  · intro x h
    apply String.ext
    show normKorList (only_digits x).data = (only_digits x).data
    apply normKor_id
    intro t
    refine ⟨?_, ?_, ?_, ?_, ?_, ?_⟩ <;> intro hbad
    · exact h "10" ⟨t⟩ (by simp) (String.ext (by rw [hbad]; rfl))
    · exact h "11" ⟨t⟩ (by simp) (String.ext (by rw [hbad]; rfl))
    · exact h "16" ⟨t⟩ (by simp) (String.ext (by rw [hbad]; rfl))
    · exact h "17" ⟨t⟩ (by simp) (String.ext (by rw [hbad]; rfl))
    · exact h "18" ⟨t⟩ (by simp) (String.ext (by rw [hbad]; rfl))
    · exact h "19" ⟨t⟩ (by simp) (String.ext (by rw [hbad]; rfl))

/-- Witness for C4 at a concrete input: "+8210-1234-5678" is rewritten to the
local form. -/
theorem C4_normalize_kor_rewrite_witness :
    normalize_kor "+8210-1234-5678" = "0" ++ "10" ++ "12345678" :=
  C4_normalize_kor_rewrite.1 "+8210-1234-5678" "10" "12345678" (by decide) (by decide)

/-- C5: locale normalization is idempotent; in particular `normalize_kor`
leaves already-local numbers and digit strings with no recognized mobile
prefix group unchanged (the latter is the second half of C4). -/
theorem C5_normalize_kor_idem (x : String) :
    normalize_kor (normalize_kor x) = normalize_kor x := by
  apply String.ext
  show normKorList (only_digits (normalize_kor x)).data = normKorList (only_digits x).data
  have h1 : (only_digits (normalize_kor x)).data
      = (normKorList (only_digits x).data).filter Char.isDigit := rfl
  rw [h1, filter_normKorList, normKorList_idem]

/-! ### The app.py POST /sms handler -/

/-- Configuration of app.py read from the environment: `ENV_SENDER` and the
`ALLOW_UNREGISTERED` bypass flag. -/
structure Env where
  sender : String
  allowUnregistered : Bool
deriving DecidableEq

/-- The JSON body of a POST /sms request: the fields the handler reads, each
possibly absent.  `sp` appears in requests but is never read by this
variant (fixed policy). -/
structure SmsBody where
  site : Option String
  vd : Option String
  vtLabel : Option String
  name : Option String
  phone : Option String
  memo : Option String
  sp : Option String
deriving DecidableEq

/-- One message of app.py's outbound send payload. -/
structure Payload where
  to' : String
  from' : String
  type : String
  text : String
deriving DecidableEq

/-- An outbound network call performed by the /sms handler. -/
inductive OutCall where
  | verify : OutCall
  | send (payload : Payload) : OutCall
deriving DecidableEq

/-- Value `res_json`: the vendor send-response body as the handlers store it —
either the parsed JSON document or the wrapped raw text
(`\x7b"raw": r.text\x7d`). -/
inductive ResJson where
  | parsed (j : String)
  | raw (text : String)
deriving DecidableEq

/-- Outcome of the outbound message POST: the call may raise, or return an
HTTP status code together with a body that either parses as JSON (`some`)
or does not (`none`, with the raw text alongside). -/
inductive SendOutcome where
  | raises (err : String)
  | http (status : Nat) (jsonBody : Option String) (text : String)
deriving DecidableEq

/-- Response of the /sms handler: a validation/verification/transport error
(`ok:false` with an error string), a surfaced vendor error (`ok:false` with
status and detail), or success. -/
inductive SmsResponse where
  | err (error : String)
  | httpErr (status : Nat) (detail : ResJson)
  | success (result : ResJson) (from_used to_used : String) (allow_unregistered : Bool)
deriving DecidableEq

/-- Projection to the `ok` field of the /sms response. -/
def SmsResponse.okFlag : SmsResponse → Bool
  | .err _ => false
  | .httpErr _ _ => false
  | .success _ _ _ _ => true

/-- Check `re.fullmatch(r"\d\x7b9,12\x7d", s)` from app.py. -/
def fullmatchDigits9to12 (s : String) : Bool :=
  9 ≤ s.length && s.length ≤ 12 && s.data.all Char.isDigit

/-- The POST /sms handler from app.py as a pure function: `fetch` and
`sendRes` are oracles for what the two outbound calls would return if
issued; the second component lists the calls the handler actually performs,
in order. -/
def sms (env : Env) (fetch : FetchResult) (sendRes : SendOutcome) (body : SmsBody) :
    SmsResponse × List OutCall :=
  let site := strTrim (pyOr body.site "")
  let vd := strTrim (pyOr body.vd "")
  let vt_label := strTrim (pyOr body.vtLabel "")
  let name := strTrim (pyOr body.name "")
  let phone := only_digits (pyOr body.phone "")
  let memo := strTrim (pyOr body.memo "")
  let admin_phone := normalize_kor env.sender
  if site = "" then (.err "site 누락", [])
  else if vd = "" then (.err "vd(날짜) 누락", [])
  else if name = "" then (.err "name 누락", [])
  else if phone = "" then (.err "phone(고객 연락처) 누락", [])
  else if !(fullmatchDigits9to12 admin_phone) then
    (.err "ENV_SENDER 형식 오류(숫자 9~12자리) 또는 미등록", [])
  else
    let registered := fetch_registered_senders fetch
    if admin_phone ∉ registered ∧ env.allowUnregistered = false then
      (.err "ENV_SENDER가 솔라피에 등록/승인되지 않았습니다.", [OutCall.verify])
    else
      let text := build_admin_text site vd vt_label name phone memo
      let payload : Payload := ⟨admin_phone, admin_phone, "SMS", text⟩
      match sendRes with
      | .raises e => (.err e, [OutCall.verify, OutCall.send payload])
      | .http status jsonBody rawText =>
        let res_json := match jsonBody with
          | some j => ResJson.parsed j
          | none => ResJson.raw rawText
        if status / 100 ≠ 2 then
          (.httpErr status res_json, [OutCall.verify, OutCall.send payload])
        else
          (.success res_json admin_phone admin_phone env.allowUnregistered,
           [OutCall.verify, OutCall.send payload])

/-! ### The main.py POST /send handler -/

/-- Configuration of main.py read from the environment. -/
structure MainEnv where
  apiKey : String
  apiSecret : String
  secretOnly : Bool
  sender : String
  allowDevEcho : Bool
deriving DecidableEq

/-- The JSON body of a POST /send request; `sp` is carried by clients of the
other variant and is never read here. -/
structure SendBody where
  site : Option String
  vd : Option String
  vtLabel : Option String
  name : Option String
  phone : Option String
  sp : Option String
deriving DecidableEq

/-- The single-message payload of main.py's send (no "type" field). -/
structure MainPayload where
  to' : String
  from' : String
  text : String
deriving DecidableEq

/-- An outbound network call performed by /send. -/
inductive MainCall where
  | post (payload : MainPayload)
deriving DecidableEq

/-- Return value of `send_via_solapi`: either the early env-error dict or
the dict built from the vendor response (`ok` / `status` / `data`). -/
inductive SolapiResult where
  | envError (error : String)
  | result (ok : Bool) (status : Nat) (data : ResJson)
deriving DecidableEq

/-- Field access `result.get("ok")` under Python truthiness (missing key is falsy). -/
def SolapiResult.okField : SolapiResult → Bool
  | .envError _ => false
  | .result ok _ _ => ok

/-- Field access `result.get("status")` (missing key is `None`). -/
def SolapiResult.statusField : SolapiResult → Option Nat
  | .envError _ => none
  | .result _ st _ => some st

/-- Field access `result.get("data")` (missing key is `None`). -/
def SolapiResult.dataField : SolapiResult → Option ResJson
  | .envError _ => none
  | .result _ _ d => some d

/-- Function `send_via_solapi` from main.py.  The `requests.post` call is not wrapped
in try/except, so a raised transport exception escapes: it is modelled as
`Except.error`.  `resp.ok` is `status < 400`.  The second component lists
the outbound posts actually performed. -/
def send_via_solapi (env : MainEnv) (outcome : SendOutcome) (text to' : String) :
    Except String SolapiResult × List MainCall :=
  let doPost : Except String SolapiResult × List MainCall :=
    match outcome with
    | .raises e => (.error e, [MainCall.post ⟨to', env.sender, text⟩])
    | .http status jsonBody rawText =>
      let data := match jsonBody with
        | some j => ResJson.parsed j
        | none => ResJson.raw rawText
      (.ok (.result (status < 400) status data), [MainCall.post ⟨to', env.sender, text⟩])
  if env.secretOnly = true ∧ env.apiSecret ≠ "" then doPost
  else if env.apiKey = "" ∨ env.apiSecret = "" then
    (.ok (.envError "SOLAPI_API_KEY / SOLAPI_API_SECRET 환경변수 필요"), [])
  else doPost

/-- Response of the /send handler together with the HTTP status code of the
JSONResponse that carries it. -/
inductive SendResponse where
  | validationErr (error : String) (statusCode : Nat)
  | devEcho (message_preview : String)
  | senderUnset (error : String) (statusCode : Nat)
  | final (ok : Bool) (message : String) (solapi_result : Option ResJson)
      (status : Option Nat) (statusCode : Nat)
deriving DecidableEq

/-- Projection to the `ok` field of the /send response. -/
def SendResponse.okFlag : SendResponse → Bool
  | .validationErr _ _ => false
  | .devEcho _ => true
  | .senderUnset _ _ => false
  | .final ok _ _ _ _ => ok

/-- The POST /send handler from main.py.  The first component is
`Except.error e` when an uncaught exception `e` propagates out of the
handler to the HTTP layer. -/
def send (env : MainEnv) (outcome : SendOutcome) (body : SendBody) :
    Except String SendResponse × List MainCall :=
  let site0 := strTrim (pyOr body.site "")
  let site := if site0 = "" then "현장명" else site0
  let vd := strTrim (pyOr body.vd "")
  let vt_label := strTrim (pyOr body.vtLabel "")
  let name := strTrim (pyOr body.name "")
  let phone := normalize_phone (pyOr body.phone "")
  if vd = "" ∨ name = "" ∨ phone = "" then
    (.ok (.validationErr "필수값 누락(vd/name/phone)" 400), [])
  else if env.allowDevEcho = true ∧ phone = "00000000000" then
    (.ok (.devEcho (build_message site vd vt_label name phone)), [])
  else if env.sender = "" then
    (.ok (.senderUnset "SOLAPI_SENDER(발신번호) 미설정" 500), [])
  else
    let msg := build_message site vd vt_label name phone
    let sv := send_via_solapi env outcome msg phone
    (sv.1.map (fun result =>
        SendResponse.final result.okField msg result.dataField result.statusField
          (if result.okField then 200 else 502)),
     sv.2)

/-- Every run of the /sms handler performs no call, only the verification
fetch, or the fetch followed by one send whose payload routes
from = to = the normalized configured sender. -/
theorem sms_calls_shape (env : Env) (fetch : FetchResult) (sendRes : SendOutcome)
    (body : SmsBody) :
    (sms env fetch sendRes body).2 = [] ∨
    (sms env fetch sendRes body).2 = [OutCall.verify] ∨
    ∃ text, (sms env fetch sendRes body).2 =
      [OutCall.verify,
       OutCall.send ⟨normalize_kor env.sender, normalize_kor env.sender, "SMS", text⟩] := by
  simp only [sms]
  split
  · exact Or.inl rfl
  split
  · exact Or.inl rfl
  split
  · exact Or.inl rfl
  split
  · exact Or.inl rfl
  split
  · exact Or.inl rfl
  split
  · exact Or.inr (Or.inl rfl)
  cases sendRes with
  | raises e => exact Or.inr (Or.inr ⟨_, rfl⟩)
  | http st jb tx =>
    dsimp only
    split
    · exact Or.inr (Or.inr ⟨_, rfl⟩)
    · exact Or.inr (Or.inr ⟨_, rfl⟩)

/-- C3: under the fixed-admin policy every outbound message routes
from = to = `normalize_kor env.sender`, and the caller-supplied recipient
field `sp` has no influence on the handler at all. -/
theorem C3_sms_fixed_admin_route (env : Env) (fetch : FetchResult) (sendRes : SendOutcome)
    (body : SmsBody) :
    (∀ p, OutCall.send p ∈ (sms env fetch sendRes body).2 →
        p.from' = normalize_kor env.sender ∧ p.to' = normalize_kor env.sender) ∧
    (∀ sp', sms env fetch sendRes { body with sp := sp' } = sms env fetch sendRes body) := by
  constructor
  · intro p hp
    rcases sms_calls_shape env fetch sendRes body with h | h | ⟨text, h⟩ <;> rw [h] at hp
    · exact absurd hp (List.not_mem_nil _)
    · exact absurd (List.mem_singleton.mp hp) (by intro h'; cases h')
    · rcases List.mem_cons.mp hp with h' | hp'
      · cases h'
      · have h2 := List.mem_singleton.mp hp'
        injection h2 with h3
        rw [h3]
        exact ⟨rfl, rfl⟩
  · intro sp'
    cases body
    rfl

/-- Witness for C3 at a concrete accepted request: the send payload routes
from = to = the normalized admin number even though the request supplied a
different `sp`. -/
theorem C3_sms_fixed_admin_route_witness :
    (Payload.mk "01099998888" "01099998888" "SMS"
        (build_admin_text "보라매" "2025-11-06" "10:00 ~ 11:00" "홍길동" "01012341234" "")).from'
      = normalize_kor "01099998888" ∧
    (Payload.mk "01099998888" "01099998888" "SMS"
        (build_admin_text "보라매" "2025-11-06" "10:00 ~ 11:00" "홍길동" "01012341234" "")).to'
      = normalize_kor "01099998888" :=
  (C3_sms_fixed_admin_route ⟨"01099998888", true⟩ FetchResult.raises
      (SendOutcome.http 200 (some "resp") "")
      ⟨some "보라매", some "2025-11-06", some "10:00 ~ 11:00", some "홍길동",
       some "01012341234", some "", some "01022223333"⟩).1 _ (by decide)

/-- C10: a /sms request whose site field is missing or empty after trimming
is answered ok:false with the validation error "site 누락" and no outbound
call (neither verification fetch nor message send) is performed, although
the data model treats site as optional. -/
theorem C10_sms_requires_site (env : Env) (fetch : FetchResult) (sendRes : SendOutcome)
    (body : SmsBody) (h : strTrim (pyOr body.site "") = "") :
    sms env fetch sendRes body = (SmsResponse.err "site 누락", []) ∧
    (sms env fetch sendRes body).1.okFlag = false := by
  have hmain : sms env fetch sendRes body = (SmsResponse.err "site 누락", []) := by
    simp [sms, h]
  exact ⟨hmain, by rw [hmain]; rfl⟩

/-- Witness for C10 at a concrete input with a whitespace-only site field. -/
theorem C10_sms_requires_site_witness :
    sms ⟨"01099998888", false⟩ (FetchResult.response "application/json" (some []))
        (SendOutcome.http 200 (some "resp") "")
        ⟨some "  ", some "2025-11-06", some "10:00", some "홍길동", some "01012341234",
         some "", none⟩
      = (SmsResponse.err "site 누락", []) ∧
    (sms ⟨"01099998888", false⟩ (FetchResult.response "application/json" (some []))
        (SendOutcome.http 200 (some "resp") "")
        ⟨some "  ", some "2025-11-06", some "10:00", some "홍길동", some "01012341234",
         some "", none⟩).1.okFlag = false :=
  C10_sms_requires_site _ _ _ _ (by decide)

/-- C1 (amended): when `ALLOW_UNREGISTERED` is set, an inbound /sms request
that passes field validation always proceeds to the send — in particular
when the verification fetch fails — with the configured (normalized) sender
as both route endpoints.  When `ALLOW_UNREGISTERED` is unset, a validated
request is answered ok:false with the verification error whenever the fetch
degrades to the empty approved set (which is what every fetch failure
produces), and the send is not attempted. -/
theorem C1_sms_verification_fallback (env : Env) (fetch : FetchResult) (sendRes : SendOutcome)
    (body : SmsBody)
    (hsite : strTrim (pyOr body.site "") ≠ "")
    (hvd : strTrim (pyOr body.vd "") ≠ "")
    (hname : strTrim (pyOr body.name "") ≠ "")
    (hphone : only_digits (pyOr body.phone "") ≠ "")
    (hadmin : fullmatchDigits9to12 (normalize_kor env.sender) = true) :
    (env.allowUnregistered = true →
      ∃ p, (sms env fetch sendRes body).2 = [OutCall.verify, OutCall.send p] ∧
        p.from' = normalize_kor env.sender ∧ p.to' = normalize_kor env.sender) ∧
    (env.allowUnregistered = false → fetch_registered_senders fetch = [] →
      sms env fetch sendRes body =
        (SmsResponse.err "ENV_SENDER가 솔라피에 등록/승인되지 않았습니다.", [OutCall.verify])) := by
  constructor
  · intro hallow
    simp only [sms, hsite, hvd, hname, hphone, hadmin, hallow, if_false, Bool.not_true,
      Bool.false_eq_true, Bool.true_eq_false, and_false, ite_false]
    cases sendRes with
    | raises e => exact ⟨_, rfl, rfl, rfl⟩
    | http st jb tx =>
      dsimp only
      split
      · exact ⟨_, rfl, rfl, rfl⟩
      · exact ⟨_, rfl, rfl, rfl⟩
  · intro hallow hreg
    simp [sms, hsite, hvd, hname, hphone, hadmin, hallow, hreg]

/-- Witness for C1 at a concrete input: with `ALLOW_UNREGISTERED` unset and
a non-JSON verification response, the validated request is rejected. -/
theorem C1_sms_verification_fallback_witness :
    sms ⟨"01099998888", false⟩ (FetchResult.response "text/html" none)
        (SendOutcome.http 200 (some "resp") "")
        ⟨some "보라매", some "2025-11-06", some "10:00 ~ 11:00", some "홍길동",
         some "01012341234", some "", none⟩
      = (SmsResponse.err "ENV_SENDER가 솔라피에 등록/승인되지 않았습니다.", [OutCall.verify]) :=
  (C1_sms_verification_fallback ⟨"01099998888", false⟩ (FetchResult.response "text/html" none)
      (SendOutcome.http 200 (some "resp") "")
      ⟨some "보라매", some "2025-11-06", some "10:00 ~ 11:00", some "홍길동",
       some "01012341234", some "", none⟩
      (by decide) (by decide) (by decide) (by decide) (by decide)).2 rfl (by decide)

/-- C1 counterexample: with `ALLOW_UNREGISTERED` at its default (unset), a
request that passes field validation is answered ok:false purely because
the verification fetch raised — the send is never attempted, contradicting
the claim that the send is attempted whenever the fetch fails. -/
theorem C1_counterexample :
    sms ⟨"01099998888", false⟩ FetchResult.raises (SendOutcome.http 200 (some "resp") "")
        ⟨some "보라매", some "2025-11-06", some "10:00 ~ 11:00", some "홍길동",
         some "01012341234", some "", none⟩
      = (SmsResponse.err "ENV_SENDER가 솔라피에 등록/승인되지 않았습니다.", [OutCall.verify]) := by
  decide

/-- C2 (amended): a request whose name, date, or customer phone is empty
(after trimming / digit stripping) is rejected with ok:false and no
outbound call, in both variants; but no 9–12-digit format check is applied
to the customer phone — the only such format check is on the configured
admin number. -/
theorem C2_validation_rejects (env : Env) (menv : MainEnv) (fetch : FetchResult)
    (sendRes : SendOutcome) (body : SmsBody) (mbody : SendBody)
    (h : strTrim (pyOr body.name "") = "" ∨ strTrim (pyOr body.vd "") = "" ∨
         only_digits (pyOr body.phone "") = "")
    (hm : strTrim (pyOr mbody.name "") = "" ∨ strTrim (pyOr mbody.vd "") = "" ∨
         normalize_phone (pyOr mbody.phone "") = "") :
    ((sms env fetch sendRes body).1.okFlag = false ∧ (sms env fetch sendRes body).2 = []) ∧
    ((send menv sendRes mbody).1
        = Except.ok (SendResponse.validationErr "필수값 누락(vd/name/phone)" 400) ∧
      (send menv sendRes mbody).2 = []) := by
  constructor
  · rcases h with h | h | h <;>
      · simp only [sms, h]
        split_ifs <;> simp_all [SmsResponse.okFlag]
  · rcases hm with hm | hm | hm <;>
      · simp [send, hm]

/-- Witness for C2 at concrete inputs with a missing name field. -/
theorem C2_validation_rejects_witness :
    ((sms ⟨"01099998888", true⟩ FetchResult.raises (SendOutcome.http 200 (some "resp") "")
        ⟨some "보라매", some "2025-11-06", some "", none, some "01012341234", some "",
         none⟩).1.okFlag = false ∧
      (sms ⟨"01099998888", true⟩ FetchResult.raises (SendOutcome.http 200 (some "resp") "")
        ⟨some "보라매", some "2025-11-06", some "", none, some "01012341234", some "",
         none⟩).2 = []) ∧
    ((send ⟨"key", "secret", false, "01099998888", false⟩ (SendOutcome.http 200 (some "resp") "")
        ⟨some "보라매", some "2025-11-06", some "", none, some "01012341234", none⟩).1
        = Except.ok (SendResponse.validationErr "필수값 누락(vd/name/phone)" 400) ∧
      (send ⟨"key", "secret", false, "01099998888", false⟩ (SendOutcome.http 200 (some "resp") "")
        ⟨some "보라매", some "2025-11-06", some "", none, some "01012341234", none⟩).2 = []) :=
  C2_validation_rejects ⟨"01099998888", true⟩ ⟨"key", "secret", false, "01099998888", false⟩
    FetchResult.raises (SendOutcome.http 200 (some "resp") "")
    ⟨some "보라매", some "2025-11-06", some "", none, some "01012341234", some "", none⟩
    ⟨some "보라매", some "2025-11-06", some "", none, some "01012341234", none⟩
    (by decide) (by decide)

/-- C2 counterexample: a request whose customer phone digit string is "123"
— which does not match 9–12 digits — is not rejected: the response is
ok:true and outbound calls are performed. -/
theorem C2_counterexample :
    (sms ⟨"01099998888", true⟩ FetchResult.raises (SendOutcome.http 200 (some "resp") "")
        ⟨some "보라매", some "2025-11-06", some "", some "홍길동", some "123", some "",
         none⟩).1.okFlag = true ∧
    (sms ⟨"01099998888", true⟩ FetchResult.raises (SendOutcome.http 200 (some "resp") "")
        ⟨some "보라매", some "2025-11-06", some "", some "홍길동", some "123", some "",
         none⟩).2 ≠ [] := by
  decide

/-- C8 (amended): the fixed-admin variant renders exactly five lines in the
fixed order site/date/time/name/phone, each prefixed with its fixed Korean
label and with empty optional fields rendered as "-"; the fixed-sender
variant uses different labels and omits the time line entirely when the
time label is empty. -/
theorem C8_message_body (site vd vt_label name phone memo : String) :
    (∃ d1 d2 d3 d4 d5 : String,
      build_admin_text site vd vt_label name phone memo =
        String.intercalate "\n"
          ["현장 : " ++ d1, "날짜 : " ++ d2, "시간 : " ++ d3, "이름 : " ++ d4,
           "연락처 : " ++ d5] ∧
      (site = "" → d1 = "-") ∧ (vd = "" → d2 = "-") ∧ (strTrim vt_label = "" → d3 = "-") ∧
      (name = "" → d4 = "-") ∧ (phone = "" → d5 = "-")) ∧
    (vt_label = "" →
      build_message site vd vt_label name phone =
        String.intercalate "\n"
          [strTrim ("현장: " ++ site), strTrim ("날짜: " ++ vd),
           strTrim ("성함: " ++ name), strTrim ("연락처: " ++ phone)]) := by
  constructor
  · refine ⟨(if (if site ≠ "" ∧ !(strStarts site "[" && strEnds site "]") then
          "[" ++ site ++ "]" else site) = "" then "-"
        else (if site ≠ "" ∧ !(strStarts site "[" && strEnds site "]") then
          "[" ++ site ++ "]" else site)),
      (if vd = "" then "-" else vd),
      (if strTrim vt_label = "" then "-" else strTrim vt_label),
      (if name = "" then "-" else name),
      (if phone = "" then "-" else phone), rfl, ?_, ?_, ?_, ?_, ?_⟩
    · intro h
      simp [h]
    · intro h
      simp [h]
    · intro h
      simp [h]
    · intro h
      simp [h]
    · intro h
      simp [h]
  · intro h
    subst h
    rfl

/-- Witness for C8 at a concrete input: with an empty time label the
fixed-sender variant renders the four remaining lines. -/
theorem C8_message_body_witness :
    build_message "보라매" "2025-11-06" "" "홍길동" "01012341234" =
      String.intercalate "\n"
        [strTrim ("현장: " ++ "보라매"), strTrim ("날짜: " ++ "2025-11-06"),
         strTrim ("성함: " ++ "홍길동"), strTrim ("연락처: " ++ "01012341234")] :=
  (C8_message_body "보라매" "2025-11-06" "" "홍길동" "01012341234" "").2 rfl

/-- C8 counterexample: with an empty time label the fixed-sender variant's
body contains three newline characters, i.e. four lines, not five — the
time line is omitted rather than rendered as "-". -/
theorem C8_counterexample :
    ((build_message "보라매" "2025-11-06" "" "홍길동" "01012341234").data.count '\n') ≠ 4 := by
  decide

/-- Characterization of the posts performed by `send_via_solapi`: either
none (missing credentials) or exactly one, routed from the configured
sender to the `to` argument. -/
theorem send_via_solapi_calls (env : MainEnv) (outcome : SendOutcome) (text to' : String) :
    (send_via_solapi env outcome text to').2 = [] ∨
    (send_via_solapi env outcome text to').2 = [MainCall.post ⟨to', env.sender, text⟩] := by
  simp only [send_via_solapi]
  split
  · cases outcome <;> exact Or.inr rfl
  · split
    · exact Or.inl rfl
    · cases outcome <;> exact Or.inr rfl

/-- Every run of the /send handler performs no post or exactly one post,
routed from the configured sender to the digit-normalized customer phone. -/
theorem send_calls_shape (env : MainEnv) (outcome : SendOutcome) (body : SendBody) :
    (send env outcome body).2 = [] ∨
    ∃ text, (send env outcome body).2 =
      [MainCall.post ⟨normalize_phone (pyOr body.phone ""), env.sender, text⟩] := by
  simp only [send]
  split
  · exact Or.inl rfl
  split
  · exact Or.inl rfl
  split
  · exact Or.inl rfl
  dsimp only
  rcases send_via_solapi_calls env outcome
      (build_message
        (if strTrim (pyOr body.site "") = "" then "현장명" else strTrim (pyOr body.site ""))
        (strTrim (pyOr body.vd "")) (strTrim (pyOr body.vtLabel ""))
        (strTrim (pyOr body.name "")) (normalize_phone (pyOr body.phone "")))
      (normalize_phone (pyOr body.phone "")) with h | h
  · exact Or.inl h
  · exact Or.inr ⟨_, h⟩

/-- C6 (amended): under the fixed-sender policy every outbound message has
from = the configured sender (exactly as configured) and to = the
digit-normalized customer phone field; no separate recipient field is read
(the `sp` field has no influence on the handler at all). -/
theorem C6_send_fixed_sender_route (env : MainEnv) (outcome : SendOutcome) (body : SendBody) :
    (∀ p, MainCall.post p ∈ (send env outcome body).2 →
        p.from' = env.sender ∧ p.to' = normalize_phone (pyOr body.phone "")) ∧
    (∀ sp', send env outcome { body with sp := sp' } = send env outcome body) := by
  constructor
  · intro p hp
    rcases send_calls_shape env outcome body with h | ⟨text, h⟩ <;> rw [h] at hp
    · exact absurd hp (List.not_mem_nil _)
    · have h2 := List.mem_singleton.mp hp
      injection h2 with h3
      rw [h3]
      exact ⟨rfl, rfl⟩
  · intro sp'
    cases body
    rfl

/-- Witness for C6 at a concrete accepted request: the payload goes out from
the configured sender to the customer phone. -/
theorem C6_send_fixed_sender_route_witness :
    (MainPayload.mk "01011112222" "01099998888"
        (build_message "보라매" "2025-11-06" "" "홍길동" "01011112222")).from' = "01099998888" ∧
    (MainPayload.mk "01011112222" "01099998888"
        (build_message "보라매" "2025-11-06" "" "홍길동" "01011112222")).to'
      = normalize_phone (pyOr (some "01011112222") "") :=
  (C6_send_fixed_sender_route ⟨"key", "secret", false, "01099998888", false⟩
      (SendOutcome.http 200 (some "resp") "")
      ⟨some "보라매", some "2025-11-06", some "", some "홍길동", some "01011112222",
       some "01022223333"⟩).1 _ (by decide)

/-- C6 counterexample: with customer phone 01011112222 and a caller-supplied
recipient field 01022223333, the outbound "to" is the customer phone, not
the recipient field — which the handler never reads. -/
theorem C6_counterexample :
    (send ⟨"key", "secret", false, "01099998888", false⟩ (SendOutcome.http 200 (some "resp") "")
        ⟨some "보라매", some "2025-11-06", some "", some "홍길동", some "01011112222",
         some "01022223333"⟩).2
      = [MainCall.post ⟨"01011112222", "01099998888",
          build_message "보라매" "2025-11-06" "" "홍길동" "01011112222"⟩] ∧
    ("01011112222" : String) ≠ "01022223333" := by
  constructor
  · decide
  · decide

/-- C9 (amended): a transport-level exception during the outbound send is,
in the fixed-admin /sms variant, caught and answered as the structured
failure ok:false carrying the error description; in the fixed-sender /send
variant it propagates to the HTTP layer as an uncaught exception whenever
the post was attempted.  A malformed vendor response body never raises in
either variant: its raw text is wrapped, and the ok flag follows the HTTP
status code. -/
theorem C9_transport_failures :
    (∀ env fetch body e p, OutCall.send p ∈ (sms env fetch (SendOutcome.raises e) body).2 →
        (sms env fetch (SendOutcome.raises e) body).1 = SmsResponse.err e) ∧
    (∀ env body e p, MainCall.post p ∈ (send env (SendOutcome.raises e) body).2 →
        (send env (SendOutcome.raises e) body).1 = Except.error e) ∧
    (∀ env fetch body st tx p,
        OutCall.send p ∈ (sms env fetch (SendOutcome.http st none tx) body).2 →
        (sms env fetch (SendOutcome.http st none tx) body).1 =
          if st / 100 ≠ 2 then SmsResponse.httpErr st (ResJson.raw tx)
          else SmsResponse.success (ResJson.raw tx) (normalize_kor env.sender)
            (normalize_kor env.sender) env.allowUnregistered) ∧
    (∀ env body st jb tx e, (send env (SendOutcome.http st jb tx) body).1 ≠ Except.error e) := by
  refine ⟨?_, ?_, ?_, ?_⟩
  · intro env fetch body e p hp
    by_cases h1 : strTrim (pyOr body.site "") = ""
    · simp [sms, h1] at hp
    by_cases h2 : strTrim (pyOr body.vd "") = ""
    · simp [sms, h1, h2] at hp
    by_cases h3 : strTrim (pyOr body.name "") = ""
    · simp [sms, h1, h2, h3] at hp
    by_cases h4 : only_digits (pyOr body.phone "") = ""
    · simp [sms, h1, h2, h3, h4] at hp
    by_cases h5 : fullmatchDigits9to12 (normalize_kor env.sender) = true
    case neg => simp [sms, h1, h2, h3, h4, h5] at hp
    by_cases h6 : normalize_kor env.sender ∉ fetch_registered_senders fetch ∧
        env.allowUnregistered = false
    · simp [sms, h1, h2, h3, h4, h5, h6] at hp
    · simp [sms, h1, h2, h3, h4, h5, h6]
  · intro env body e p hp
    by_cases hv : strTrim (pyOr body.vd "") = ""
    · simp [send, hv] at hp
    by_cases hn : strTrim (pyOr body.name "") = ""
    · simp [send, hv, hn] at hp
    by_cases hph : normalize_phone (pyOr body.phone "") = ""
    · simp [send, hv, hn, hph] at hp
    by_cases h2 : (env.allowDevEcho = true ∧ normalize_phone (pyOr body.phone "") = "00000000000")
    · simp [send, hv, hn, hph, h2] at hp
    by_cases h3 : env.sender = ""
    · simp [send, hv, hn, hph, h2, h3] at hp
    by_cases h4 : (env.secretOnly = true ∧ env.apiSecret ≠ "")
    · simp [send, send_via_solapi, hv, hn, hph, h2, h3, h4, Except.map]
    by_cases h5 : (env.apiKey = "" ∨ env.apiSecret = "")
    · simp [send, send_via_solapi, hv, hn, hph, h2, h3, h4, h5] at hp
    · simp [send, send_via_solapi, hv, hn, hph, h2, h3, h4, h5, Except.map]
  · intro env fetch body st tx p hp
    by_cases h1 : strTrim (pyOr body.site "") = ""
    · simp [sms, h1] at hp
    by_cases h2 : strTrim (pyOr body.vd "") = ""
    · simp [sms, h1, h2] at hp
    by_cases h3 : strTrim (pyOr body.name "") = ""
    · simp [sms, h1, h2, h3] at hp
    by_cases h4 : only_digits (pyOr body.phone "") = ""
    · simp [sms, h1, h2, h3, h4] at hp
    by_cases h5 : fullmatchDigits9to12 (normalize_kor env.sender) = true
    case neg => simp [sms, h1, h2, h3, h4, h5] at hp
    by_cases h6 : normalize_kor env.sender ∉ fetch_registered_senders fetch ∧
        env.allowUnregistered = false
    · simp [sms, h1, h2, h3, h4, h5, h6] at hp
    by_cases h7 : st / 100 ≠ 2
    · simp [sms, h1, h2, h3, h4, h5, h6, h7]
    · simp [sms, h1, h2, h3, h4, h5, h6, h7]
  · intro env body st jb tx e
    by_cases hv : strTrim (pyOr body.vd "") = ""
    · simp [send, hv]
    by_cases hn : strTrim (pyOr body.name "") = ""
    · simp [send, hv, hn]
    by_cases hph : normalize_phone (pyOr body.phone "") = ""
    · simp [send, hv, hn, hph]
    by_cases h2 : (env.allowDevEcho = true ∧ normalize_phone (pyOr body.phone "") = "00000000000")
    · simp [send, hv, hn, hph, h2]
    by_cases h3 : env.sender = ""
    · simp [send, hv, hn, hph, h2, h3]
    by_cases h4 : (env.secretOnly = true ∧ env.apiSecret ≠ "")
    · simp [send, send_via_solapi, hv, hn, hph, h2, h3, h4, Except.map]
    by_cases h5 : (env.apiKey = "" ∨ env.apiSecret = "")
    · simp [send, send_via_solapi, hv, hn, hph, h2, h3, h4, h5, Except.map]
    · simp [send, send_via_solapi, hv, hn, hph, h2, h3, h4, h5, Except.map]

/-- Witness for C9 at a concrete input: a raised timeout during the /sms
send is answered as the structured error. -/
theorem C9_transport_failures_witness :
    (sms ⟨"01099998888", true⟩ FetchResult.raises (SendOutcome.raises "ReadTimeout")
        ⟨some "보라매", some "2025-11-06", some "10:00 ~ 11:00", some "홍길동",
         some "01012341234", some "", none⟩).1 = SmsResponse.err "ReadTimeout" :=
  C9_transport_failures.1 ⟨"01099998888", true⟩ FetchResult.raises
    ⟨some "보라매", some "2025-11-06", some "10:00 ~ 11:00", some "홍길동",
     some "01012341234", some "", none⟩ "ReadTimeout"
    ⟨"01099998888", "01099998888", "SMS",
      build_admin_text "보라매" "2025-11-06" "10:00 ~ 11:00" "홍길동" "01012341234" ""⟩
    (by decide)

/-- C9 counterexample: a raised transport exception during the /send post
propagates out of the handler to the HTTP layer instead of being returned
as a structured failure. -/
theorem C9_counterexample :
    (send ⟨"key", "secret", false, "01099998888", false⟩ (SendOutcome.raises "ConnectTimeout")
        ⟨some "보라매", some "2025-11-06", some "", some "홍길동", some "01011112222",
         none⟩).1
      = Except.error "ConnectTimeout" := rfl

end Solapi
